import Mathlib

/-!
Verification of the hyperbrowser padel-booking scripts.

The definitions below are a shallow embedding of the in-page slot-selection
logic, the modal-polling primitive, the bounded booking-attempt loop and the
run boundary (catch / cleanup) of the repository, translated from the
JavaScript source (the main variant is the first document of
src/unnamed/part_001; src/index.js and src/court-released.js are also
modelled where a claim cites them).
-/

namespace PadelBooking

/-! ## String helpers (JS semantics) -/

/-- Membership of `pat` as a contiguous subsequence, mirroring the JS
`String.prototype.includes` used throughout the source
(for example `timeText?.includes(targetTime)`). -/
def containsSeq (pat : List Char) : List Char → Bool
  | [] => pat.isEmpty
  | c :: cs => pat.isPrefixOf (c :: cs) || containsSeq pat cs

/-- JS `s.includes(pat)`. -/
def jsIncludes (s pat : String) : Bool := containsSeq pat.toList s.toList

/-- JS truthiness of the optional trimmed text content of an element:
`undefined` (no element) and the empty string are falsy. -/
def jsTruthy : Option String → Bool
  | some s => s != ""
  | none => false

/-! ## DOM model of the booking grid

A `Slot` is one `.BookingGrid-cell.Slot` element.  `id` models DOM node
identity (each element of a `querySelectorAll` result is a distinct node).
`timeText` is the trimmed text of the child `.Slot-text` (none when the child
is absent), `classes` the class list, `colIndex` the index of the element
among its parent's children, and `attempted` the value of the
`data-booking-attempted` attribute (none when the attribute is absent). -/
structure Slot where
  id : Nat
  timeText : Option String
  classes : List String
  colIndex : Nat
  attempted : Option String
deriving DecidableEq, Repr

/-- From src/unnamed/part_001 lines 283-285: inside the availability filter,
`if (!slot.hasAttribute('data-booking-attempted'))
 slot.setAttribute('data-booking-attempted', 'false')`. -/
def initSlot (s : Slot) : Slot :=
  if s.attempted.isNone then { s with attempted := some "false" } else s

/-- The attribute initialisation that the availability read performs on every
slot of the grid (the filter callback runs, and mutates, every slot). -/
def initGrid (g : List Slot) : List Slot := g.map initSlot

/-- The availability predicate of `getAvailableSlots`
(src/unnamed/part_001 lines 277-289): trimmed time text is truthy, the class
list contains `available`, and `data-booking-attempted` is `'false'`.
The `disabled` class is not consulted. -/
def slotAvailableUntried (s : Slot) : Bool :=
  jsTruthy s.timeText && s.classes.contains "available"
    && (s.attempted == some "false")

/-- `getAvailableSlots` of src/unnamed/part_001 lines 277-289 as a state
transformer: it returns the filtered slot list together with the grid after
the attribute initialisation it performs while reading. -/
def getAvailableSlots (g : List Slot) : List Slot × List Slot :=
  ((initGrid g).filter slotAvailableUntried, initGrid g)

/-- The `isClickable` field of the diagnostic `allSlots` listing in
src/index.js lines 116-123: `!slot.classList.contains('disabled')`.
It is computed for logging only and never feeds the selection. -/
def isClickable (s : Slot) : Bool := !(s.classes.contains "disabled")

/-! ## Court identification (`getCourtInfo`) -/

/-- `getCourtInfo` court name (src/unnamed/part_001 lines 263-274): the text
of the `.BookingGridArea-name` header at the slot's column index, with the
fallback `'Unknown'` when the lookup fails. -/
def courtName (headers : List String) (s : Slot) : String :=
  headers.getD s.colIndex "Unknown"

/-- `getCourtInfo` court number: `courtName.includes('Court 1') ? "1" : "2"`. -/
def courtNumber (headers : List String) (s : Slot) : String :=
  if jsIncludes (courtName headers s) "Court 1" then "1" else "2"

/-- `getCourtInfo` preferred flag: `courtNumber === preferred_court`. -/
def isPreferredCourt (pref : String) (headers : List String) (s : Slot) : Bool :=
  courtNumber headers s == pref

/-! ## The court-preference sort

The source sorts same-time slots with the comparator
`(a, b) => courtB.isPreferred - courtA.isPreferred`
(src/unnamed/part_001 lines 298-303).  ECMAScript `Array.prototype.sort` is
required to be stable, so the sort is modelled by a stable insertion sort on
the induced boolean order: `a` may precede `b` exactly when the comparator
value is not positive. -/

/-- `a` may precede `b` under the JS comparator
`courtB.isPreferred - courtA.isPreferred`, i.e. the comparator is ≤ 0. -/
def courtCompareLe (pref : String) (headers : List String) (a b : Slot) : Bool :=
  !(isPreferredCourt pref headers b) || isPreferredCourt pref headers a

/-- Stable insertion of `a` into an already sorted list: `a` is placed before
the first element it may precede, hence after every earlier-inserted element
it ties with. -/
def orderedInsertB (le : α → α → Bool) (a : α) : List α → List α
  | [] => [a]
  | b :: l => if le a b then a :: b :: l else b :: orderedInsertB le a l

/-- Stable sort by a boolean "may precede" relation.  For the total preorder
induced by a JS comparator this agrees with every stable sort, in particular
with the engine's `Array.prototype.sort`. -/
def stableSortB (le : α → α → Bool) : List α → List α
  | [] => []
  | a :: l => orderedInsertB le a (stableSortB le l)

/-- `sortedSlots` of src/unnamed/part_001 lines 298-303. -/
def sortedSlots (pref : String) (headers : List String) (slots : List Slot) :
    List Slot :=
  stableSortB (courtCompareLe pref headers) slots

/-- The slot the selector picks among the non-empty matching set
`m :: ms`: `sortedSlots[0]` (src/unnamed/part_001 line 305). -/
def chooseSlot (pref : String) (headers : List String) (m : Slot)
    (ms : List Slot) : Slot :=
  (sortedSlots pref headers (m :: ms)).headD m

/-! ## The slot selector (`clickResult` page.evaluate) -/

/-- Does the slot's time text include the target time
(`timeText?.includes(targetTime)`, src/unnamed/part_001 lines 293-296)? -/
def slotMatchesTime (t : String) (s : Slot) : Bool :=
  match s.timeText with
  | some txt => jsIncludes txt t
  | none => false

/-- `slot.setAttribute('data-booking-attempted', 'true')` on the chosen DOM
node (src/unnamed/part_001 line 307), node identity modelled by `id`. -/
def markAttempted (targetId : Nat) (g : List Slot) : List Slot :=
  g.map fun s =>
    if s.id == targetId then { s with attempted := some "true" } else s

/-- The slot-selection loop of the `clickResult` page.evaluate
(src/unnamed/part_001 lines 291-334): iterate the priority times in order;
for the first time with a non-empty set of matching untried available slots,
sort that set by court preference, mark the first sorted slot as attempted
and return it together with the matched time; return none when no priority
time matches.  The grid state (attribute mutations) is threaded through. -/
def findSlot (pref : String) (headers : List String) :
    List String → List Slot → Option (String × Slot) × List Slot
  | [], g => (none, g)
  | t :: ts, g =>
    let avail := (getAvailableSlots g).1
    let g' := (getAvailableSlots g).2
    match avail.filter (slotMatchesTime t) with
    | [] => findSlot pref headers ts g'
    | m :: ms =>
      let chosen := chooseSlot pref headers m ms
      (some (t, chosen), markAttempted chosen.id g')

/-- First priority time that has at least one matching untried available slot
in the (initialised) grid. -/
def hasMatch (t : String) (g : List Slot) : Bool :=
  !(((initGrid g).filter slotAvailableUntried).filter (slotMatchesTime t)).isEmpty

/-- Adding the `disabled` marker class to a slot. -/
def addDisabled (s : Slot) : Slot :=
  { s with classes := s.classes ++ ["disabled"] }

/-- Every slot of the grid that carries the target node id is flagged
attempted, so it can never pass the untried filter again. -/
def markedTrue (i : Nat) (g : List Slot) : Prop :=
  ∀ s ∈ g, s.id = i → s.attempted = some "true"

/-! ## The modal-polling primitive (`waitForModalUpdate`)

src/unnamed/part_001 lines 36-83 and src/unnamed/part_002 lines 54-97.
A poll observes the modal area of the DOM; the observed facts are the text
content of `.Modal-content` (none when the element is absent) and the
presence of the primary action button
`button.Button.Button--success.ng-animate-disabled`. -/

/-- One DOM observation of the modal area. -/
structure ModalDom where
  modalContent : Option String
  nextButtonPresent : Bool
deriving DecidableEq, Repr

/-- The conflict marker text searched for in the modal. -/
def alreadyBookedMsg : String :=
  "This court already has a booking or event at this time"

/-- The `ModalState` record built by each `page.evaluate` poll. -/
structure ModalState where
  hasModal : Bool
  modalText : String
  isAlreadyBooked : Bool
  hasNextButton : Bool
deriving DecidableEq, Repr

/-- The poll body (src/unnamed/part_001 lines 41-50): `hasModal` is the
presence of the modal content or of the next button, `isAlreadyBooked` the
conflict marker in the modal text. -/
def readModalState (d : ModalDom) : ModalState :=
  { hasModal := d.modalContent.isSome || d.nextButtonPresent
    modalText := d.modalContent.getD ""
    isAlreadyBooked :=
      match d.modalContent with
      | some t => jsIncludes t alreadyBookedMsg
      | none => false
    hasNextButton := d.nextButtonPresent }

/-- The optional target state handed to `waitForModalUpdate`
(`expectedState`); a `none` field is an absent property of the JS object. -/
structure Expected where
  hasModal : Option Bool
  isAlreadyBooked : Option Bool
deriving DecidableEq, Repr

/-- The three early-return conditions of the polling loop
(src/unnamed/part_001 lines 52-65). -/
def matchesExpected (e : Expected) (m : ModalState) : Bool :=
  (match e.hasModal with | some b => m.hasModal == b | none => false)
    || (match e.isAlreadyBooked with
        | some b => m.isAlreadyBooked == b
        | none => false)
    || ((e.hasModal == some true) && m.hasNextButton)

/-- `const maxAttempts = 20` (src/unnamed/part_001 line 37). -/
def maxPollAttempts : Nat := 20

/-- `const interval = 500` milliseconds (src/unnamed/part_001 line 38). -/
def pollIntervalMs : Nat := 500

/-- The polling loop from attempt index `i` with the number of attempts that
remain in the budget: observation `doms i` is the `page.evaluate` of attempt
`i` (observations are taken `pollIntervalMs` apart); when the budget is
exhausted the loop falls through to one final fresh observation (the read at
the current index, i.e. a 21st evaluate) and returns it instead of throwing
(src/unnamed/part_001 lines 40-82).  The source iterates
`for (i = 0; i < maxAttempts; i++)`; here the remaining budget
`maxPollAttempts - i` drives the recursion. -/
def pollFrom (doms : Nat → ModalDom) (e : Expected) (i : Nat) :
    Nat → ModalState
  | 0 => readModalState (doms i)
  | fuel + 1 =>
    if matchesExpected e (readModalState (doms i)) then readModalState (doms i)
    else pollFrom doms e (i + 1) fuel

/-- `waitForModalUpdate page expectedState`. -/
def waitForModalUpdate (doms : Nat → ModalDom) (e : Expected) : ModalState :=
  pollFrom doms e 0 maxPollAttempts

/-- The branch the confirmation driver takes after clicking a `Next` button,
on the modal state the poll returned (src/unnamed/part_001 lines 394-424):
a detected conflict cancels and retries; otherwise a still-present next
button is soft success and the flow continues; otherwise control just falls
through to the next step. -/
inductive NextStepAction where
  | cancelAndRetry
  | continueFlow
  | fallThrough
deriving DecidableEq, Repr

/-- Decision function of the driver's `Next` step. -/
def afterNextDecision (m : ModalState) : NextStepAction :=
  if m.isAlreadyBooked then .cancelAndRetry
  else if m.hasNextButton then .continueFlow
  else .fallThrough

/-! ## The booking attempt loop

src/unnamed/part_001 lines 254-497.  One iteration of the `while` loop is a
full attempt (select and click a slot, then drive the confirmation modal);
its outcome is either a confirmed booking (the `return` at line 488), a
detected conflict (`continue` at line 473), or a thrown error (no more
slots, a missing button, a fatal modal state).  The loop body's interaction
with the site is abstracted as the outcome `step n` of attempt number `n`. -/

/-- Outcome of one booking attempt. -/
inductive AttemptStep where
  | confirmed
  | conflict
  | thrown (msg : String)
deriving DecidableEq, Repr

/-- `const MAX_BOOKING_ATTEMPTS = 3` (src/unnamed/part_001 line 255). -/
def MAX_BOOKING_ATTEMPTS : Nat := 3

/-- The error thrown when the loop exits by its guard
(src/unnamed/part_001 line 497). -/
def exhaustedMsg : String :=
  "Failed to book after " ++ toString MAX_BOOKING_ATTEMPTS
    ++ " attempts - all attempted slots were already booked"

/-- The `while (bookingAttempts < MAX_BOOKING_ATTEMPTS)` loop from a given
attempt counter, driven by the remaining budget
`MAX_BOOKING_ATTEMPTS - attempts`; returns the loop outcome (booked, or the
thrown error message — exhaustion of the guard throws `exhaustedMsg`,
line 497) together with the final value of `bookingAttempts`, i.e. the
number of attempts performed. -/
def bookingLoopFrom (step : Nat → AttemptStep) (attempts : Nat) :
    Nat → Except String Unit × Nat
  | 0 => (.error exhaustedMsg, attempts)
  | fuel + 1 =>
    match step (attempts + 1) with
    | .confirmed => (.ok (), attempts + 1)
    | .conflict => bookingLoopFrom step (attempts + 1) fuel
    | .thrown m => (.error m, attempts + 1)

/-- The whole attempt loop, entered with `bookingAttempts = 0`. -/
def bookingLoop (step : Nat → AttemptStep) : Except String Unit × Nat :=
  bookingLoopFrom step 0 MAX_BOOKING_ATTEMPTS

/-! ## The run boundary: catch blocks, results and resource cleanup -/

/-- The structured result object returned by a run (section 6 of the spec);
absent JS fields are `none` / `false`. -/
structure RunResult where
  success : Bool
  error : Option String := none
  timeBooked : Option String := none
  date : Option String := none
  debug : Bool := false
  logs : List String := []
deriving DecidableEq, Repr

/-- The external resources a run can hold. -/
structure Resources where
  sessionActive : Bool
  browserOpen : Bool
deriving DecidableEq, Repr

/-- The conditional cleanup of the catch blocks
(src/unnamed/part_001 lines 502-507):
`if (browser) await browser.close(); if (session) await
client.sessions.stop(session.id)`. -/
def catchCleanup (r : Resources) : Resources :=
  let r1 := if r.browserOpen then { r with browserOpen := false } else r
  if r1.sessionActive then { r1 with sessionActive := false } else r1

/-- The unconditional cleanup on the success path
(src/unnamed/part_001 lines 482-485): close the browser, stop the session. -/
def successCleanup (_r : Resources) : Resources :=
  { sessionActive := false, browserOpen := false }

/-- The result object built by the catch block of src/unnamed/part_001
lines 509-515: success false, the error message, the last clicked time if
any, the date and the accumulated logs. -/
def catchResult (lastClickTime : Option String) (date : Option String)
    (logs : List String) (msg : String) : RunResult :=
  { success := false, error := some msg, timeBooked := lastClickTime
    date := date, logs := logs }

/-- The exit paths of `main` in src/unnamed/part_001 (lines 158-516),
distinguished by which resources were live when control left the try block. -/
inductive ExitPath where
  | debugReturn
  | thrownNoSession (msg : String)
  | thrownSessionOnly (msg : String)
  | thrownConnected (msg : String)
  | exhaustedAttempts
  | bookedReturn (time : String)
deriving DecidableEq, Repr

/-- `main` of src/unnamed/part_001 at its run boundary: for each exit path,
the returned result object and the final resource state.  The debug-mode
return (lines 160-168) happens before any session exists; every thrown error
reaches the catch block (lines 499-516) which runs the conditional cleanup
and returns the structured failure result; exhaustion of the attempt loop
throws `exhaustedMsg` (line 497); the success return (lines 477-493) runs
the unconditional cleanup first. -/
def part001Main (p : ExitPath) (lastClickTime : Option String)
    (date : Option String) (logs : List String) : RunResult × Resources :=
  match p with
  | .debugReturn =>
    ({ success := true, debug := true, logs := logs },
      { sessionActive := false, browserOpen := false })
  | .thrownNoSession m =>
    (catchResult lastClickTime date logs m,
      catchCleanup { sessionActive := false, browserOpen := false })
  | .thrownSessionOnly m =>
    (catchResult lastClickTime date logs m,
      catchCleanup { sessionActive := true, browserOpen := false })
  | .thrownConnected m =>
    (catchResult lastClickTime date logs m,
      catchCleanup { sessionActive := true, browserOpen := true })
  | .exhaustedAttempts =>
    (catchResult lastClickTime date logs exhaustedMsg,
      catchCleanup { sessionActive := true, browserOpen := true })
  | .bookedReturn t =>
    ({ success := true, timeBooked := some t, date := date, logs := logs },
      successCleanup { sessionActive := true, browserOpen := true })

/-- The exit paths of `main` in src/index.js (lines 20-244). -/
inductive IndexExitPath where
  | thrownNoSession (msg : String)
  | thrownSessionOnly (msg : String)
  | thrownConnected (msg : String)
  | bookedReturn (time : String)
deriving DecidableEq, Repr

/-- The `finally` block of src/index.js lines 234-243: the same conditional
close and stop, run on every exit. -/
def finallyCleanup (r : Resources) : Resources := catchCleanup r

/-- `main` of src/index.js at its run boundary: the catch block logs and
rethrows (`throw error`, line 233), so a failed run terminates with the
propagated exception (`Except.error`) instead of a structured result; only
the success path produces a result object.  The `finally` block releases the
resources on both kinds of exit. -/
def indexJsMain (p : IndexExitPath) (date : Option String)
    (logs : List String) : Except String RunResult × Resources :=
  match p with
  | .thrownNoSession m =>
    (.error m, finallyCleanup { sessionActive := false, browserOpen := false })
  | .thrownSessionOnly m =>
    (.error m, finallyCleanup { sessionActive := true, browserOpen := false })
  | .thrownConnected m =>
    (.error m, finallyCleanup { sessionActive := true, browserOpen := true })
  | .bookedReturn t =>
    (.ok { success := true, timeBooked := some t, date := date, logs := logs },
      finallyCleanup { sessionActive := true, browserOpen := true })

/-! ## Helper lemmas about the stable sort -/

theorem orderedInsertB_all_le {α : Type} (le : α → α → Bool) (a : α)
    (l : List α) (h : ∀ b ∈ l, le a b = true) :
    orderedInsertB le a l = a :: l := by
  cases l with
  | nil => rfl
  | cons b bs => simp [orderedInsertB, h b (List.mem_cons_self b bs)]

theorem orderedInsertB_append_all_not {α : Type} (le : α → α → Bool) (a : α)
    (xs ys : List α) (h : ∀ b ∈ xs, le a b = false) :
    orderedInsertB le a (xs ++ ys) = xs ++ orderedInsertB le a ys := by
  induction xs with
  | nil => rfl
  | cons x xs ih =>
    simp only [List.cons_append, orderedInsertB,
      h x (List.mem_cons_self x xs)]
    simp only [Bool.false_eq_true, if_false, List.cons.injEq, true_and]
    exact ih fun b hb => h b (List.mem_cons_of_mem x hb)

/-- A stable sort whose "may precede" relation is induced by a boolean key
is exactly the stable partition: the slots satisfying the key, in input
order, followed by the others, in input order. -/
theorem stableSortB_boolKey {α : Type} (p : α → Bool) (l : List α) :
    stableSortB (fun a b => !(p b) || p a) l =
      l.filter p ++ l.filter (fun a => !(p a)) := by
  induction l with
  | nil => rfl
  | cons a l ih =>
    simp only [stableSortB, ih]
    cases hp : p a with
    | true =>
      rw [orderedInsertB_all_le _ _ _ (fun b _ => by simp [hp])]
      simp [List.filter_cons, hp]
    | false =>
      rw [orderedInsertB_append_all_not _ _ _ _
        (fun b hb => by simp [hp, (List.mem_filter.mp hb).2])]
      rw [orderedInsertB_all_le _ _ _
        (fun b hb => by simp [hp, (List.mem_filter.mp hb).2])]
      simp [List.filter_cons, hp]

/-- `sortedSlots` is the stable partition by the preferred-court flag. -/
theorem sortedSlots_eq_partition (pref : String) (headers : List String)
    (l : List Slot) :
    sortedSlots pref headers l =
      l.filter (isPreferredCourt pref headers)
        ++ l.filter (fun s => !(isPreferredCourt pref headers s)) :=
  stableSortB_boolKey (isPreferredCourt pref headers) l

theorem chooseSlot_mem (pref : String) (headers : List String) (m : Slot)
    (ms : List Slot) : chooseSlot pref headers m ms ∈ m :: ms := by
  rw [chooseSlot, sortedSlots_eq_partition]
  cases hL : (m :: ms).filter (isPreferredCourt pref headers)
      ++ (m :: ms).filter (fun s => !(isPreferredCourt pref headers s)) with
  | nil => simp [List.headD]
  | cons c cs =>
    simp only [List.headD]
    have hc : c ∈ (m :: ms).filter (isPreferredCourt pref headers)
        ++ (m :: ms).filter (fun s => !(isPreferredCourt pref headers s)) := by
      rw [hL]; exact List.mem_cons_self c cs
    rcases List.mem_append.mp hc with h | h
    · exact (List.mem_filter.mp h).1
    · exact (List.mem_filter.mp h).1

/-! ## Helper lemmas about initialisation and marking -/

theorem initSlot_initSlot (s : Slot) : initSlot (initSlot s) = initSlot s := by
  cases h : s.attempted <;> simp [initSlot, h]

theorem initGrid_initGrid (g : List Slot) : initGrid (initGrid g) = initGrid g := by
  simp [initGrid, Function.comp_def, initSlot_initSlot]

theorem hasMatch_initGrid (t : String) (g : List Slot) :
    hasMatch t (initGrid g) = hasMatch t g := by
  rw [hasMatch, hasMatch, initGrid_initGrid]

/-- C2: among the untried available slots matching the chosen time label,
the court-preference sort is the stable partition by the preferred-court
flag (grid order preserved inside each part); hence when exactly one
matching slot is on the preferred court the selector picks it, and when no
matching slot is on the preferred court the selector picks the first
matching slot in original grid order. -/
theorem selector_court_preference (pref : String) (headers : List String)
    (m : Slot) (ms : List Slot) :
    (sortedSlots pref headers (m :: ms) =
        (m :: ms).filter (isPreferredCourt pref headers)
          ++ (m :: ms).filter (fun s => !(isPreferredCourt pref headers s)))
    ∧ (∀ s : Slot,
        (m :: ms).filter (isPreferredCourt pref headers) = [s] →
        chooseSlot pref headers m ms = s)
    ∧ ((∀ s ∈ m :: ms, isPreferredCourt pref headers s = false) →
        chooseSlot pref headers m ms = m) := by
  refine ⟨sortedSlots_eq_partition pref headers (m :: ms), ?_, ?_⟩
  · intro s hs
    rw [chooseSlot, sortedSlots_eq_partition, hs]
    rfl
  · intro hnone
    rw [chooseSlot, sortedSlots_eq_partition]
    have h1 : (m :: ms).filter (isPreferredCourt pref headers) = [] := by
      rw [List.filter_eq_nil_iff]
      intro s hs
      simp [hnone s hs]
    have h2 : (m :: ms).filter (fun s => !(isPreferredCourt pref headers s))
        = m :: ms.filter (fun s => !(isPreferredCourt pref headers s)) := by
      rw [List.filter_cons]
      simp [hnone m (List.mem_cons_self m ms)]
    rw [h1, h2]
    rfl

/-- Witness for C2: the spec scenario with two 14:00 slots and preferred
court 2 picks the court-2 slot, and with an empty header list (every court
classified "2") and preferred court "1" no slot is preferred, so the first
slot in grid order is picked. -/
theorem selector_court_preference_witness :
    chooseSlot "2" ["Padel Court 1", "Padel Court 2"]
        ⟨2, some "14:00", ["Slot", "available"], 0, none⟩
        [⟨3, some "14:00", ["Slot", "available"], 1, none⟩]
      = ⟨3, some "14:00", ["Slot", "available"], 1, none⟩
    ∧ chooseSlot "1" []
        ⟨2, some "14:00", ["Slot", "available"], 0, none⟩
        [⟨3, some "14:00", ["Slot", "available"], 1, none⟩]
      = ⟨2, some "14:00", ["Slot", "available"], 0, none⟩ := by
  constructor
  · exact (selector_court_preference "2" ["Padel Court 1", "Padel Court 2"]
      ⟨2, some "14:00", ["Slot", "available"], 0, none⟩
      [⟨3, some "14:00", ["Slot", "available"], 1, none⟩]).2.1
      ⟨3, some "14:00", ["Slot", "available"], 1, none⟩ (by decide)
  · exact (selector_court_preference "1" []
      ⟨2, some "14:00", ["Slot", "available"], 0, none⟩
      [⟨3, some "14:00", ["Slot", "available"], 1, none⟩]).2.2 (by decide)

/-- C10: a slot whose resolved court-header name does not contain the
substring "Court 1" is classified as court "2"; the header-lookup fallback
is "Unknown", which does not contain "Court 1"; and with preferred court
"2" every such slot sorts (stably) ahead of every slot recognised as
Court 1. -/
theorem unknown_court_classified_two (headers : List String)
    (slots : List Slot) :
    (∀ s : Slot, headers.length ≤ s.colIndex → courtName headers s = "Unknown")
    ∧ jsIncludes "Unknown" "Court 1" = false
    ∧ (∀ s : Slot, jsIncludes (courtName headers s) "Court 1" = false →
        courtNumber headers s = "2")
    ∧ ∃ front back,
        sortedSlots "2" headers slots = front ++ back
        ∧ (∀ s ∈ slots,
            jsIncludes (courtName headers s) "Court 1" = false → s ∈ front)
        ∧ ∀ s ∈ back, jsIncludes (courtName headers s) "Court 1" = true := by
  refine ⟨?_, by decide, ?_, ?_⟩
  · intro s h
    exact List.getD_eq_default headers "Unknown" h
  · intro s h
    simp [courtNumber, h]
  · refine ⟨slots.filter (isPreferredCourt "2" headers),
      slots.filter (fun s => !(isPreferredCourt "2" headers s)),
      sortedSlots_eq_partition "2" headers slots, ?_, ?_⟩
    · intro s hs h
      refine List.mem_filter.mpr ⟨hs, ?_⟩
      simp [isPreferredCourt, courtNumber, h]
    · intro s hs
      have h2 := (List.mem_filter.mp hs).2
      by_contra h
      simp only [Bool.not_eq_true] at h
      simp [isPreferredCourt, courtNumber, h] at h2

/-- Witness for C10: with the single header "Padel Court 1", a slot whose
column index is out of range resolves to "Unknown", is classified court
"2", and with preferred court "2" sorts ahead of the recognised Court 1
slot. -/
theorem unknown_court_classified_two_witness :
    courtName ["Padel Court 1"] ⟨7, some "10:00", ["Slot"], 5, none⟩ = "Unknown"
    ∧ courtNumber ["Padel Court 1"] ⟨7, some "10:00", ["Slot"], 5, none⟩ = "2"
    ∧ ∃ front back,
        sortedSlots "2" ["Padel Court 1"]
            [⟨6, some "10:00", ["Slot"], 0, none⟩,
              ⟨7, some "10:00", ["Slot"], 5, none⟩] = front ++ back
        ∧ ⟨7, some "10:00", ["Slot"], 5, none⟩ ∈ front := by
  have h := unknown_court_classified_two ["Padel Court 1"]
    [⟨6, some "10:00", ["Slot"], 0, none⟩, ⟨7, some "10:00", ["Slot"], 5, none⟩]
  refine ⟨h.1 ⟨7, some "10:00", ["Slot"], 5, none⟩ (by decide),
    h.2.2.1 ⟨7, some "10:00", ["Slot"], 5, none⟩ (by decide), ?_⟩
  obtain ⟨front, back, heq, hfront, _⟩ := h.2.2.2
  exact ⟨front, back, heq,
    hfront ⟨7, some "10:00", ["Slot"], 5, none⟩ (by decide) (by decide)⟩

/-- C1: whenever some priority time has at least one matching untried
available slot, the selector returns a slot for the first such time in
priority order (and the returned slot's time text matches it); it never
returns a slot for a later-priority time when an earlier-priority time has
a match. -/
theorem selector_first_priority_time (pref : String) (headers : List String)
    (pts : List String) (g : List Slot) (t : String)
    (h : pts.find? (fun u => hasMatch u g) = some t) :
    ∃ c g₂, findSlot pref headers pts g = (some (t, c), g₂)
      ∧ slotMatchesTime t c = true := by
  induction pts generalizing g with
  | nil => simp at h
  | cons t' ts ih =>
    rw [List.find?_cons] at h
    cases hm : hasMatch t' g with
    | true =>
      rw [hm] at h
      simp only [Option.some.injEq] at h
      subst h
      cases hL : ((initGrid g).filter slotAvailableUntried).filter
          (slotMatchesTime t') with
      | nil =>
        rw [hasMatch, hL] at hm
        simp at hm
      | cons m ms =>
        refine ⟨chooseSlot pref headers m ms,
          markAttempted (chooseSlot pref headers m ms).id (initGrid g), ?_, ?_⟩
        · simp only [findSlot, getAvailableSlots]
          rw [hL]
        · have hmem := chooseSlot_mem pref headers m ms
          rw [← hL] at hmem
          exact (List.mem_filter.mp hmem).2
    | false =>
      rw [hm] at h
      have hnil : ((initGrid g).filter slotAvailableUntried).filter
          (slotMatchesTime t') = [] := by
        rw [hasMatch] at hm
        simpa [List.isEmpty_iff] using hm
      have hrec : findSlot pref headers (t' :: ts) g
          = findSlot pref headers ts (initGrid g) := by
        simp only [findSlot, getAvailableSlots]
        rw [hnil]
      have hfind : ts.find? (fun u => hasMatch u (initGrid g)) = some t := by
        have hfun : (fun u => hasMatch u (initGrid g))
            = fun u => hasMatch u g :=
          funext fun u => hasMatch_initGrid u g
        rw [hfun]
        exact h
      rw [hrec]
      exact ih (initGrid g) hfind

/-- Witness for C1: the spec scenario — priority times 12:00 then 13:00,
preferred court 1, grid with 13:00 on court 1 and 12:00 on court 2; the
first priority time with a match is 12:00 and the selector returns a 12:00
slot (earlier priority time wins over court preference). -/
theorem selector_first_priority_time_witness :
    (["12:00", "13:00"].find? (fun u => hasMatch u
        [⟨0, some "13:00", ["BookingGrid-cell", "Slot", "available"], 0, none⟩,
          ⟨1, some "12:00", ["BookingGrid-cell", "Slot", "available"], 1, none⟩])
      = some "12:00")
    ∧ ∃ c g₂,
        findSlot "1" ["Padel Court 1", "Padel Court 2"] ["12:00", "13:00"]
            [⟨0, some "13:00", ["BookingGrid-cell", "Slot", "available"], 0, none⟩,
              ⟨1, some "12:00", ["BookingGrid-cell", "Slot", "available"], 1, none⟩]
          = (some ("12:00", c), g₂)
        ∧ slotMatchesTime "12:00" c = true :=
  ⟨by decide,
    selector_first_priority_time "1" ["Padel Court 1", "Padel Court 2"]
      ["12:00", "13:00"]
      [⟨0, some "13:00", ["BookingGrid-cell", "Slot", "available"], 0, none⟩,
        ⟨1, some "12:00", ["BookingGrid-cell", "Slot", "available"], 1, none⟩]
      "12:00" (by decide)⟩

/-! ## Helper lemmas for the attempted-slot invariant -/

theorem markedTrue_markAttempted (i : Nat) (g : List Slot) :
    markedTrue i (markAttempted i g) := by
  intro s hs hid
  obtain ⟨s₀, _, rfl⟩ := List.mem_map.mp hs
  by_cases hb : (s₀.id == i) = true
  · simp [hb]
  · simp only [hb, if_false] at hid ⊢
    exact absurd (beq_iff_eq.mpr hid) hb

theorem markedTrue_initGrid {i : Nat} {g : List Slot}
    (h : markedTrue i g) : markedTrue i (initGrid g) := by
  intro s hs hid
  obtain ⟨s₀, hs₀, rfl⟩ := List.mem_map.mp hs
  have hid₀ : s₀.id = i := by
    cases ha : s₀.attempted <;> simp [initSlot, ha] at hid <;> exact hid
  have hatt := h s₀ hs₀ hid₀
  simp [initSlot, hatt]

theorem markedTrue_markAttempted_of (j : Nat) {i : Nat} {g : List Slot}
    (h : markedTrue i g) : markedTrue i (markAttempted j g) := by
  intro s hs hid
  obtain ⟨s₀, hs₀, rfl⟩ := List.mem_map.mp hs
  by_cases hb : (s₀.id == j) = true
  · simp [hb]
  · simp only [hb, if_false] at hid ⊢
    exact h s₀ hs₀ hid

/-- When the selector succeeds, every slot of the output grid carrying the
chosen node's id is flagged attempted. -/
theorem findSlot_marks_chosen (pref : String) (headers : List String) :
    ∀ (pts : List String) (g : List Slot) (t : String) (c : Slot)
      (g₂ : List Slot),
      findSlot pref headers pts g = (some (t, c), g₂) → markedTrue c.id g₂ := by
  intro pts
  induction pts with
  | nil =>
    intro g t c g₂ h
    simp [findSlot] at h
  | cons t' ts ih =>
    intro g t c g₂ h
    simp only [findSlot, getAvailableSlots] at h
    cases hL : ((initGrid g).filter slotAvailableUntried).filter
        (slotMatchesTime t') with
    | nil =>
      rw [hL] at h
      exact ih _ _ _ _ h
    | cons m ms =>
      rw [hL] at h
      simp only [Prod.mk.injEq, Option.some.injEq] at h
      obtain ⟨⟨_, rfl⟩, rfl⟩ := h
      exact markedTrue_markAttempted _ _

/-- Once every slot with a given id is flagged attempted, a selector round
keeps the flag on the whole output grid and never returns a slot with that
id. -/
theorem findSlot_preserves_marked (pref : String) (headers : List String)
    (i : Nat) :
    ∀ (pts : List String) (g : List Slot) (r : Option (String × Slot))
      (g₂ : List Slot),
      markedTrue i g → findSlot pref headers pts g = (r, g₂) →
      markedTrue i g₂ ∧ ∀ t c, r = some (t, c) → c.id ≠ i := by
  intro pts
  induction pts with
  | nil =>
    intro g r g₂ hg h
    simp only [findSlot, Prod.mk.injEq] at h
    obtain ⟨rfl, rfl⟩ := h
    exact ⟨hg, by simp⟩
  | cons t' ts ih =>
    intro g r g₂ hg h
    simp only [findSlot, getAvailableSlots] at h
    cases hL : ((initGrid g).filter slotAvailableUntried).filter
        (slotMatchesTime t') with
    | nil =>
      rw [hL] at h
      exact ih _ _ _ (markedTrue_initGrid hg) h
    | cons m ms =>
      rw [hL] at h
      simp only [Prod.mk.injEq] at h
      obtain ⟨rfl, rfl⟩ := h
      refine ⟨markedTrue_markAttempted_of _ (markedTrue_initGrid hg), ?_⟩
      intro t c hc
      simp only [Option.some.injEq, Prod.mk.injEq] at hc
      obtain ⟨_, rfl⟩ := hc
      have hmem := chooseSlot_mem pref headers m ms
      rw [← hL] at hmem
      have h1 := List.mem_filter.mp hmem
      have h2 := List.mem_filter.mp h1.1
      have hf : (chooseSlot pref headers m ms).attempted = some "false" := by
        have h3 := h2.2
        simp only [slotAvailableUntried, Bool.and_eq_true, beq_iff_eq] at h3
        exact h3.2
      intro hid
      have ht := markedTrue_initGrid hg _ h2.1 hid
      rw [hf] at ht
      exact absurd ht (by decide)

/-- C4: once a slot is chosen its node is flagged attempted in the output
grid, whatever happens to the click or the confirmation afterwards; and any
later selection round run on a grid where that node is flagged (so in
particular the output grid of the choosing round, and every grid derived
from it by further rounds) keeps the flag and never returns that slot
again. -/
theorem attempted_slot_never_reselected (pref : String) (headers : List String)
    (pts : List String) (g : List Slot) (t : String) (c : Slot)
    (g₂ : List Slot)
    (h : findSlot pref headers pts g = (some (t, c), g₂)) :
    markedTrue c.id g₂
    ∧ ∀ (pts2 : List String) (g3 : List Slot) (r : Option (String × Slot))
        (g4 : List Slot),
        markedTrue c.id g3 → findSlot pref headers pts2 g3 = (r, g4) →
        markedTrue c.id g4 ∧ ∀ t2 c2, r = some (t2, c2) → c2.id ≠ c.id :=
  ⟨findSlot_marks_chosen pref headers pts g t c g₂ h,
    fun pts2 g3 r g4 hg3 h2 =>
      findSlot_preserves_marked pref headers c.id pts2 g3 r g4 hg3 h2⟩

/-- Witness for C4: a one-slot grid; the first round picks the slot and
flags it, the second round on the resulting grid keeps the flag and returns
nothing (in particular no slot with the chosen id). -/
theorem attempted_slot_never_reselected_witness :
    markedTrue 1 [⟨1, some "12:00", ["Slot", "available"], 1, some "true"⟩]
    ∧ (findSlot "1" ["Padel Court 1", "Padel Court 2"] ["12:00"]
        [⟨1, some "12:00", ["Slot", "available"], 1, some "true"⟩]).1 = none
    ∧ ∀ (r : Option (String × Slot)) (g4 : List Slot),
        findSlot "1" ["Padel Court 1", "Padel Court 2"] ["12:00"]
            [⟨1, some "12:00", ["Slot", "available"], 1, some "true"⟩]
          = (r, g4) →
        ∀ t2 c2, r = some (t2, c2) → c2.id ≠ 1 := by
  have h := attempted_slot_never_reselected "1" ["Padel Court 1", "Padel Court 2"]
    ["12:00"] [⟨1, some "12:00", ["Slot", "available"], 1, none⟩] "12:00"
    ⟨1, some "12:00", ["Slot", "available"], 1, some "false"⟩
    [⟨1, some "12:00", ["Slot", "available"], 1, some "true"⟩] (by decide)
  exact ⟨h.1, by decide,
    fun r g4 hf => (h.2 ["12:00"] _ r g4 h.1 hf).2⟩

/-! ## Helper lemmas: the disabled marker is invisible to the selection -/

theorem initSlot_addDisabled (s : Slot) :
    initSlot (addDisabled s) = addDisabled (initSlot s) := by
  cases h : s.attempted <;> simp [initSlot, addDisabled, h]

theorem slotAvailableUntried_addDisabled (s : Slot) :
    slotAvailableUntried (addDisabled s) = slotAvailableUntried s := by
  simp [slotAvailableUntried, addDisabled, List.contains, List.elem_eq_mem]

theorem orderedInsertB_map {α : Type} (f : α → α) (le : α → α → Bool)
    (hf : ∀ a b, le (f a) (f b) = le a b) (a : α) (l : List α) :
    orderedInsertB le (f a) (l.map f) = (orderedInsertB le a l).map f := by
  induction l with
  | nil => rfl
  | cons b bs ih =>
    simp only [List.map_cons, orderedInsertB, hf a b]
    cases h : le a b <;> simp [h, ih]

theorem stableSortB_map {α : Type} (f : α → α) (le : α → α → Bool)
    (hf : ∀ a b, le (f a) (f b) = le a b) (l : List α) :
    stableSortB le (l.map f) = (stableSortB le l).map f := by
  induction l with
  | nil => rfl
  | cons a l ih =>
    simp only [List.map_cons, stableSortB, ih, orderedInsertB_map f le hf]

theorem headD_map {α : Type} (f : α → α) (l : List α) (d : α) :
    (l.map f).headD (f d) = f (l.headD d) := by
  cases l <;> rfl

theorem chooseSlot_addDisabled (pref : String) (headers : List String)
    (m : Slot) (ms : List Slot) :
    chooseSlot pref headers (addDisabled m) (ms.map addDisabled)
      = addDisabled (chooseSlot pref headers m ms) := by
  rw [chooseSlot, chooseSlot, sortedSlots, sortedSlots]
  have hcons : (addDisabled m :: ms.map addDisabled)
      = (m :: ms).map addDisabled := rfl
  rw [hcons, stableSortB_map addDisabled (courtCompareLe pref headers)
    (fun a b => rfl), headD_map]

theorem markAttempted_addDisabled (i : Nat) (g : List Slot) :
    markAttempted i (g.map addDisabled)
      = (markAttempted i g).map addDisabled := by
  simp only [markAttempted, List.map_map]
  congr 1
  funext s
  by_cases h : s.id = i <;> simp [addDisabled, h]

theorem initGrid_addDisabled (g : List Slot) :
    initGrid (g.map addDisabled) = (initGrid g).map addDisabled := by
  simp only [initGrid, List.map_map]
  congr 1
  funext s
  exact initSlot_addDisabled s

theorem availFilter_addDisabled (x : List Slot) :
    (x.map addDisabled).filter slotAvailableUntried
      = (x.filter slotAvailableUntried).map addDisabled := by
  rw [List.filter_map]
  have hfun : slotAvailableUntried ∘ addDisabled = slotAvailableUntried :=
    funext fun s => slotAvailableUntried_addDisabled s
  rw [hfun]

theorem matchFilter_addDisabled (t : String) (y : List Slot) :
    (y.map addDisabled).filter (slotMatchesTime t)
      = (y.filter (slotMatchesTime t)).map addDisabled := by
  rw [List.filter_map]
  rfl

/-- C8 amended: the selection predicate consults the `available` class (with
non-empty time text and the untried flag) but never the `disabled` class:
adding the `disabled` marker to every slot of the grid changes nothing about
which slot the selector picks; the `disabled` class only drives the logged
`isClickable` diagnostic field. -/
theorem availability_marker_only (pref : String) (headers : List String) :
    (∀ (pts : List String) (g : List Slot),
      findSlot pref headers pts (g.map addDisabled)
        = ((findSlot pref headers pts g).1.map
            (fun tc => (tc.1, addDisabled tc.2)),
          (findSlot pref headers pts g).2.map addDisabled))
    ∧ ∀ s : Slot, isClickable (addDisabled s) = false := by
  constructor
  · intro pts
    induction pts with
    | nil => intro g; simp [findSlot]
    | cons t ts ih =>
      intro g
      simp only [findSlot, getAvailableSlots]
      rw [initGrid_addDisabled, availFilter_addDisabled,
        matchFilter_addDisabled]
      cases hL : ((initGrid g).filter slotAvailableUntried).filter
          (slotMatchesTime t) with
      | nil =>
        simp only [List.map_nil]
        exact ih (initGrid g)
      | cons m ms =>
        simp only [List.map_cons]
        rw [chooseSlot_addDisabled]
        have hid : (addDisabled (chooseSlot pref headers m ms)).id
            = (chooseSlot pref headers m ms).id := rfl
        rw [hid, markAttempted_addDisabled]
        simp
  · intro s
    simp [isClickable, addDisabled, List.contains, List.elem_eq_mem]

/-- Counterexample for C8 as stated: a slot carrying both the `available`
and the `disabled` marker classes, with a matching time, is selected (the
selection never consults `disabled`), even though the diagnostic
`isClickable` field reports it as not clickable. -/
theorem disabled_slot_selected_counterexample :
    (findSlot "1" ["Padel Court 1"] ["12:00"]
        [⟨0, some "12:00", ["BookingGrid-cell", "Slot", "available", "disabled"],
          0, none⟩]).1
      = some ("12:00",
          ⟨0, some "12:00", ["BookingGrid-cell", "Slot", "available", "disabled"],
            0, some "false"⟩)
    ∧ isClickable
        ⟨0, some "12:00", ["BookingGrid-cell", "Slot", "available", "disabled"],
          0, none⟩ = false := by
  decide

/-- C9 amended: the availability read initialises the missing
`data-booking-attempted` attributes (a DOM write), but the initialisation is
idempotent: reading again, without any other page mutation, returns the same
slot sequence and leaves the page state unchanged. -/
theorem availability_reader_idempotent (g : List Slot) :
    getAvailableSlots ((getAvailableSlots g).2) = getAvailableSlots g := by
  simp [getAvailableSlots, initGrid_initGrid]

/-- Counterexample for C9 as stated: the availability read is not a pure
read — on a grid whose slot lacks the `data-booking-attempted` attribute it
mutates the page (the attribute is set to "false" during the read). -/
theorem availability_reader_mutates_counterexample :
    (getAvailableSlots [⟨0, some "12:00", ["Slot", "available"], 0, none⟩]).2
      ≠ [⟨0, some "12:00", ["Slot", "available"], 0, none⟩] := by
  decide

/-! ## Helper lemmas for the attempt-loop bound -/

theorem bookingLoopFrom_count_le (step : Nat → AttemptStep) :
    ∀ (fuel attempts : Nat),
      (bookingLoopFrom step attempts fuel).2 ≤ attempts + fuel := by
  intro fuel
  induction fuel with
  | zero => intro a; simp [bookingLoopFrom]
  | succ n ih =>
    intro a
    cases h : step (a + 1) with
    | confirmed => simp [bookingLoopFrom, h]
    | conflict =>
      have h2 := ih (a + 1)
      simp only [bookingLoopFrom, h]
      omega
    | thrown m => simp [bookingLoopFrom, h]

theorem bookingLoopFrom_all_conflict (step : Nat → AttemptStep)
    (hc : ∀ n, step n = .conflict) :
    ∀ (fuel attempts : Nat),
      bookingLoopFrom step attempts fuel
        = (.error exhaustedMsg, attempts + fuel) := by
  intro fuel
  induction fuel with
  | zero => intro a; simp [bookingLoopFrom]
  | succ n ih =>
    intro a
    simp only [bookingLoopFrom, hc (a + 1)]
    rw [ih (a + 1)]
    have harith : a + 1 + n = a + (n + 1) := by omega
    rw [harith]

/-- C3: the attempt loop never performs more than `MAX_BOOKING_ATTEMPTS = 3`
attempts, whatever the attempt outcomes are; and when every attempt ends in
a conflict the loop stops after exactly 3 attempts and reports the
exhaustion failure instead of attempting a fourth slot. -/
theorem booking_attempts_bounded (step : Nat → AttemptStep) :
    (bookingLoop step).2 ≤ MAX_BOOKING_ATTEMPTS
    ∧ ((∀ n, step n = .conflict) →
        bookingLoop step = (.error exhaustedMsg, MAX_BOOKING_ATTEMPTS)) := by
  constructor
  · have h := bookingLoopFrom_count_le step MAX_BOOKING_ATTEMPTS 0
    simpa [bookingLoop] using h
  · intro hc
    have h := bookingLoopFrom_all_conflict step hc MAX_BOOKING_ATTEMPTS 0
    simpa [bookingLoop] using h

/-- Witness for C3: with every attempt ending in a conflict, the loop
performs exactly 3 attempts and reports the exhaustion error. -/
theorem booking_attempts_bounded_witness :
    (bookingLoop fun _ => .conflict).2 ≤ MAX_BOOKING_ATTEMPTS
    ∧ bookingLoop (fun _ => .conflict)
        = (.error exhaustedMsg, MAX_BOOKING_ATTEMPTS) :=
  ⟨(booking_attempts_bounded fun _ => .conflict).1,
    (booking_attempts_bounded fun _ => .conflict).2 fun _ => rfl⟩

/-! ## Helper lemma for the polling budget -/

theorem pollFrom_exhausted (doms : Nat → ModalDom) (e : Expected) :
    ∀ (fuel i : Nat),
      (∀ j, i ≤ j → j < i + fuel →
        matchesExpected e (readModalState (doms j)) = false) →
      pollFrom doms e i fuel = readModalState (doms (i + fuel)) := by
  intro fuel
  induction fuel with
  | zero => intro i _; simp [pollFrom]
  | succ n ih =>
    intro i h
    have h0 : matchesExpected e (readModalState (doms i)) = false :=
      h i (Nat.le_refl i) (by omega)
    simp only [pollFrom, h0, Bool.false_eq_true, if_false]
    rw [ih (i + 1) (fun j hj1 hj2 => h j (by omega) (by omega))]
    have harith : i + 1 + n = i + (n + 1) := by omega
    rw [harith]

/-- C5: the modal poll uses a fixed 500ms interval and a budget of 20
attempts; when every poll in the budget fails to match the expected state
the primitive terminates normally and returns the final observed modal
state (one last fresh read) instead of throwing; and when that final state
has no conflict marker but still shows the primary action button, the
driver's `Next` step treats it as soft success and continues the flow. -/
theorem modal_poll_budget_soft_success (doms : Nat → ModalDom) (e : Expected)
    (h : ∀ i, i < maxPollAttempts →
        matchesExpected e (readModalState (doms i)) = false) :
    maxPollAttempts = 20 ∧ pollIntervalMs = 500
    ∧ waitForModalUpdate doms e = readModalState (doms maxPollAttempts)
    ∧ ((readModalState (doms maxPollAttempts)).isAlreadyBooked = false →
        (readModalState (doms maxPollAttempts)).hasNextButton = true →
        afterNextDecision (waitForModalUpdate doms e)
          = NextStepAction.continueFlow) := by
  have hpoll : waitForModalUpdate doms e
      = readModalState (doms maxPollAttempts) := by
    rw [waitForModalUpdate]
    have h2 := pollFrom_exhausted doms e maxPollAttempts 0
      (fun j _ hj2 => h j (by omega))
    simpa using h2
  refine ⟨rfl, rfl, hpoll, ?_⟩
  intro hab hbtn
  simp [afterNextDecision, hpoll, hab, hbtn]

/-- Witness for C5: all 20 polls see neither modal nor button, the final
read still shows the primary action button; the primitive returns that
state and the `Next` step continues (soft success). -/
theorem modal_poll_budget_soft_success_witness :
    waitForModalUpdate
        (fun i => if i < 20 then ⟨none, false⟩ else ⟨none, true⟩)
        ⟨some true, none⟩
      = { hasModal := true, modalText := "", isAlreadyBooked := false,
          hasNextButton := true }
    ∧ afterNextDecision
        (waitForModalUpdate
          (fun i => if i < 20 then ⟨none, false⟩ else ⟨none, true⟩)
          ⟨some true, none⟩)
      = NextStepAction.continueFlow := by
  have h := modal_poll_budget_soft_success
    (fun i => if i < 20 then ⟨none, false⟩ else ⟨none, true⟩)
    ⟨some true, none⟩ (by decide)
  refine ⟨?_, h.2.2.2 (by decide) (by decide)⟩
  rw [h.2.2.1]
  decide

/-- Counterexample for C6 as stated: the standalone variant src/index.js
does not surface failures as a structured result object — its catch block
rethrows (line 233), so a failing run terminates by propagating the
exception to the caller (whose top-level handler prints it and exits the
process with code 1). -/
theorem index_main_propagates_error :
    (indexJsMain
        (.thrownConnected "No available slots found for this day") none []).1
      = Except.error "No available slots found for this day"
    ∧ ∀ r : RunResult,
        (indexJsMain
            (.thrownConnected "No available slots found for this day")
            none []).1 ≠ Except.ok r := by
  refine ⟨rfl, ?_⟩
  intro r h
  exact Except.noConfusion h

/-- C6 amended: in the Pipedream variant (src/unnamed/part_001) every
failing exit path is caught at the run boundary and surfaced as a returned
structured result carrying success false, the error message and the
accumulated logs (the function is total into `RunResult`, never an
exception); the standalone src/index.js variant instead rethrows from its
catch block, so there the error propagates to the caller. -/
theorem run_boundary_structured_result (p : ExitPath)
    (lastClickTime date : Option String) (logs : List String)
    (h : (part001Main p lastClickTime date logs).1.success = false) :
    ∃ m, (part001Main p lastClickTime date logs).1.error = some m
      ∧ (part001Main p lastClickTime date logs).1.logs = logs := by
  cases p with
  | debugReturn => simp [part001Main] at h
  | thrownNoSession m => exact ⟨m, rfl, rfl⟩
  | thrownSessionOnly m => exact ⟨m, rfl, rfl⟩
  | thrownConnected m => exact ⟨m, rfl, rfl⟩
  | exhaustedAttempts => exact ⟨exhaustedMsg, rfl, rfl⟩
  | bookedReturn t => simp [part001Main] at h

/-- Witness for C6 (amended): a concrete failing run of the part_001
variant returns a structured result with an error string and the logs. -/
theorem run_boundary_structured_result_witness :
    ∃ m,
      (part001Main
          (.thrownConnected
            "Navigation failed: Not on the expected padel bookings page.")
          (some "12:00") (some "2025-04-17") ["log line"]).1.error = some m
      ∧ (part001Main
          (.thrownConnected
            "Navigation failed: Not on the expected padel bookings page.")
          (some "12:00") (some "2025-04-17") ["log line"]).1.logs
        = ["log line"] :=
  run_boundary_structured_result
    (.thrownConnected
      "Navigation failed: Not on the expected padel bookings page.")
    (some "12:00") (some "2025-04-17") ["log line"] rfl

/-- C7: on every exit path of both modelled run boundaries — the part_001
variant (success return, exhaustion, every thrown error, debug return) and
the src/index.js variant (whose `finally` block runs on success and on
rethrow alike) — the browser connection is closed and the remote session is
stopped before the run returns: no path returns while still holding a live
session. -/
theorem session_released_on_every_exit :
    (∀ (p : ExitPath) (lastClickTime date : Option String)
        (logs : List String),
        (part001Main p lastClickTime date logs).2
          = { sessionActive := false, browserOpen := false })
    ∧ ∀ (q : IndexExitPath) (date : Option String) (logs : List String),
        (indexJsMain q date logs).2
          = { sessionActive := false, browserOpen := false } := by
  constructor
  · intro p lct d lg
    cases p <;> rfl
  · intro q d lg
    cases q <;> rfl

end PadelBooking
